import Mathlib

/-
Verification of the rust_scaper product-availability monitor
(src/rust_scaper/src/main.rs) against its design specification.

Shallow embedding notes:
- The external collaborators (reqwest HTTP fetch, scraper HTML parsing and
  CSS-selector evaluation) are modelled as an environment: fetch maps a URL
  to page text or an error, parse_document maps page text to a queryable
  document, and a document maps a selector string to the list of matching
  elements. An element is identified by its inner_html string, the only
  observation the program makes of it.
- scraper Selector parse is applied in the source to four constant, valid
  CSS literals and always succeeds there; selectors are modelled as their
  strings.
- Rust str to_lowercase and str trim are modelled character-wise: the
  one-to-one Unicode simple lowercase mapping restricted to the Basic Latin
  and Latin-1 ranges (which cover every phrase in the classification
  tables), and the Unicode White_Space property.
-/

/-- The message-carrying error type of the source (struct SimpleError). -/
structure SimpleError where
  message : String
deriving DecidableEq

/-- SimpleError.new from the source. -/
def SimpleError.new (message : String) : SimpleError :=
  { message := message }

/-- An HTML element, observed only through inner_html. -/
structure Element where
  inner_html : String
deriving DecidableEq

/-- A parsed document: maps a CSS selector string to its matching elements,
modelling scraper Html select. -/
structure Html where
  select : String → List Element

/-- The effect environment for one run: reqwest blocking get + text as fetch,
and scraper Html parse_document. -/
structure Env where
  fetch : String → Except SimpleError String
  parse_document : String → Html

/-- get_single_element from the source: collect the matches of the selector;
error unless there is exactly one; return the single element. -/
def get_single_element (document : Html) (selector : String) :
    Except SimpleError Element :=
  let elements := document.select selector
  if h : elements.length = 1 then
    Except.ok (elements.get ⟨0, by omega⟩)
  else
    Except.error (SimpleError.new
      ("Found " ++ toString elements.length ++ " selection(s) for " ++ selector))

/-- The status enumeration of the source (enum StockStatus). -/
inductive StockStatus
  | Unknown
  | InStock
  | OutOfStock
deriving DecidableEq

/-- The ToString implementation for StockStatus from the source. -/
def StockStatus.to_string : StockStatus → String
  | StockStatus.Unknown => "unknown"
  | StockStatus.InStock => "in stock"
  | StockStatus.OutOfStock => "out of stock"

/-- Unicode simple lowercase mapping, restricted to Basic Latin and Latin-1
(models Rust char-level lowercasing for the alphabets that occur here). -/
def lowerCharRust (c : Char) : Char :=
  if 65 ≤ c.toNat ∧ c.toNat ≤ 90 then Char.ofNat (c.toNat + 32)
  else if 192 ≤ c.toNat ∧ c.toNat ≤ 222 ∧ c.toNat ≠ 215 then Char.ofNat (c.toNat + 32)
  else c

/-- Models Rust str to_lowercase (character-wise on this alphabet). -/
def lowercaseRust (s : String) : String :=
  String.mk (s.toList.map lowerCharRust)

/-- The Unicode White_Space property, as used by Rust char is_whitespace. -/
def isWhitespaceRust (c : Char) : Bool :=
  let n := c.toNat
  (9 ≤ n && n ≤ 13) || n == 32 || n == 133 || n == 160 || n == 5760 ||
    (8192 ≤ n && n ≤ 8202) || n == 8232 || n == 8233 || n == 8239 ||
    n == 8287 || n == 12288

/-- Models Rust str trim: strip leading and trailing whitespace. -/
def trimRust (s : String) : String :=
  String.mk (((s.toList.dropWhile isWhitespaceRust).reverse.dropWhile
    isWhitespaceRust).reverse)

/-- The inline match on the normalized availability text in
StrandbergGuitarsCom update (source lines 118 to 122). -/
def strandbergClassify (text : String) : StockStatus :=
  let key := trimRust (lowercaseRust text)
  if key = "out of stock" then StockStatus.OutOfStock
  else if key = "in stock" then StockStatus.InStock
  else if key = "only 1 in stock" then StockStatus.InStock
  else if key = "only 2 in stock" then StockStatus.InStock
  else StockStatus.Unknown

/-- The inline match on the normalized availability text in
ThomannDe update (source lines 176 to 182). -/
def thomannClassify (text : String) : StockStatus :=
  let key := trimRust (lowercaseRust text)
  if key = "ikke på lager" then StockStatus.OutOfStock
  else if key = "på lager indenfor 3-4 uger" then StockStatus.OutOfStock
  else if key = "på lager indenfor 1-2 uger" then StockStatus.OutOfStock
  else if key = "på lager" then StockStatus.InStock
  else StockStatus.Unknown

/-- Modelled from the spec: the Strandberg site classification table as an
exact-match phrase table (ClassificationRule of section 3), to be compared
with the inline match of the source. -/
def strandbergTable : List (String × StockStatus) :=
  [("out of stock", StockStatus.OutOfStock),
   ("in stock", StockStatus.InStock),
   ("only 1 in stock", StockStatus.InStock),
   ("only 2 in stock", StockStatus.InStock)]

/-- Modelled from the spec: the Thomann site classification table as an
exact-match phrase table, to be compared with the inline match of the
source. -/
def thomannTable : List (String × StockStatus) :=
  [("ikke på lager", StockStatus.OutOfStock),
   ("på lager indenfor 3-4 uger", StockStatus.OutOfStock),
   ("på lager indenfor 1-2 uger", StockStatus.OutOfStock),
   ("på lager", StockStatus.InStock)]

/-- The four constant selector strings of the source. -/
def strandberg_name_selector : String := "div.product-info-wrapper>h1"

def strandberg_stock_selector : String := "div.woocommerce-variation-availability>p"

def thomann_name_selector : String := "div.product-title>h1"

def thomann_stock_selector : String := "div.price-and-availability__tooltip-wrapper>span"

/-- The StrandbergGuitarsCom monitor state. -/
structure StrandbergGuitarsCom where
  stock_status : StockStatus
  name : Option String
  url : String
deriving DecidableEq

/-- StrandbergGuitarsCom.new from the source. -/
def StrandbergGuitarsCom.new (url : String) : StrandbergGuitarsCom :=
  { stock_status := StockStatus.Unknown, name := none, url := url }

/-- StrandbergGuitarsCom update from the source: reset status to Unknown,
fetch, parse, apply both selectors, then store name and classified status.
Returns the Result together with the post-call state. -/
def StrandbergGuitarsCom.update (self : StrandbergGuitarsCom) (env : Env) :
    Except SimpleError Unit × StrandbergGuitarsCom :=
  let self1 := { self with stock_status := StockStatus.Unknown }
  match env.fetch self1.url with
  | Except.error e => (Except.error e, self1)
  | Except.ok response =>
    let document := env.parse_document response
    match get_single_element document strandberg_name_selector with
    | Except.error e => (Except.error e, self1)
    | Except.ok name_element =>
      match get_single_element document strandberg_stock_selector with
      | Except.error e => (Except.error e, self1)
      | Except.ok stock_element =>
        let self2 := { self1 with name := some name_element.inner_html }
        let self3 := { self2 with
          stock_status := strandbergClassify stock_element.inner_html }
        (Except.ok (), self3)

/-- StrandbergGuitarsCom is_in_stock from the source. -/
def StrandbergGuitarsCom.is_in_stock (self : StrandbergGuitarsCom) : Bool :=
  self.stock_status == StockStatus.InStock

/-- StrandbergGuitarsCom get_status from the source (format embedded as
string concatenation). -/
def StrandbergGuitarsCom.get_status (self : StrandbergGuitarsCom) : String :=
  match self.name with
  | some name => "Status for " ++ name ++ " is " ++ self.stock_status.to_string
  | none =>
    "Status for product with url " ++ self.url ++ " is " ++
      self.stock_status.to_string

/-- The ThomannDe monitor state. -/
structure ThomannDe where
  stock_status : StockStatus
  name : Option String
  url : String
deriving DecidableEq

/-- ThomannDe.new from the source. -/
def ThomannDe.new (url : String) : ThomannDe :=
  { stock_status := StockStatus.Unknown, name := none, url := url }

/-- ThomannDe update from the source; same shape as the Strandberg variant,
with the Thomann selectors and table. -/
def ThomannDe.update (self : ThomannDe) (env : Env) :
    Except SimpleError Unit × ThomannDe :=
  let self1 := { self with stock_status := StockStatus.Unknown }
  match env.fetch self1.url with
  | Except.error e => (Except.error e, self1)
  | Except.ok response =>
    let document := env.parse_document response
    match get_single_element document thomann_name_selector with
    | Except.error e => (Except.error e, self1)
    | Except.ok name_element =>
      match get_single_element document thomann_stock_selector with
      | Except.error e => (Except.error e, self1)
      | Except.ok stock_element =>
        let self2 := { self1 with name := some name_element.inner_html }
        let self3 := { self2 with
          stock_status := thomannClassify stock_element.inner_html }
        (Except.ok (), self3)

/-- ThomannDe is_in_stock from the source. -/
def ThomannDe.is_in_stock (self : ThomannDe) : Bool :=
  self.stock_status == StockStatus.InStock

/-- ThomannDe get_status from the source. -/
def ThomannDe.get_status (self : ThomannDe) : String :=
  match self.name with
  | some name => "Status for " ++ name ++ " is " ++ self.stock_status.to_string
  | none =>
    "Status for product with url " ++ self.url ++ " is " ++
      self.stock_status.to_string

/-- A heterogeneous monitor, as stored in the Vec of Box dyn Stock in main. -/
inductive Monitor
  | strandberg : StrandbergGuitarsCom → Monitor
  | thomann : ThomannDe → Monitor

/-- Dynamic dispatch of update over the two variants. -/
def Monitor.update (m : Monitor) (env : Env) :
    Except SimpleError Unit × Monitor :=
  match m with
  | Monitor.strandberg s =>
    let r := s.update env
    (r.1, Monitor.strandberg r.2)
  | Monitor.thomann t =>
    let r := t.update env
    (r.1, Monitor.thomann r.2)

/-- Dynamic dispatch of get_status over the two variants. -/
def Monitor.get_status : Monitor → String
  | Monitor.strandberg s => s.get_status
  | Monitor.thomann t => t.get_status

/-- True exactly on the error case of a Result. -/
def isErr {ε α : Type} : Except ε α → Bool
  | Except.error _ => true
  | Except.ok _ => false

/-- The iteration in main (source lines 224 to 229): for each product call
update; on failure print an error line; then always print the status line.
Returns the emitted lines in order. -/
def run_products (env : Env) : List Monitor → List String
  | [] => []
  | p :: rest =>
    let r := p.update env
    (match r.1 with
     | Except.error e => ["Error occurred while updating, " ++ e.message]
     | Except.ok _ => []) ++ (r.2.get_status :: run_products env rest)

/-- An environment whose fetch always fails (a transport failure). -/
def fail_env : Env :=
  { fetch := fun _ => Except.error (SimpleError.new "connection failed"),
    parse_document := fun _ => { select := fun _ => [] } }

/-- A concrete Strandberg monitor state with a previously stored name. -/
def s_wit : StrandbergGuitarsCom :=
  { stock_status := StockStatus.InStock, name := some "n", url := "u" }

/-- A concrete Thomann monitor state. -/
def t_wit : ThomannDe :=
  { stock_status := StockStatus.OutOfStock, name := none, url := "u" }

/-- A document on which the Strandberg name selector matches exactly one
element but the availability selector matches none. -/
def c7_doc : Html :=
  { select := fun sel =>
      if sel = strandberg_name_selector then [{ inner_html := "NewName" }]
      else [] }

/-- Environment delivering c7_doc for every page. -/
def c7_env : Env :=
  { fetch := fun _ => Except.ok "page",
    parse_document := fun _ => c7_doc }

/-- A Strandberg monitor state carrying a stale name from an earlier
refresh. -/
def c7_state : StrandbergGuitarsCom :=
  { stock_status := StockStatus.Unknown, name := some "OldName", url := "u" }

/-- A document on which both Strandberg selectors match exactly once; the
name element carries the given product text, the availability element says
In stock. -/
def ok_doc_sb (product : String) : Html :=
  { select := fun sel =>
      if sel = strandberg_name_selector then [{ inner_html := product }]
      else if sel = strandberg_stock_selector then [{ inner_html := "In stock" }]
      else [] }

/-- Environment on which a Strandberg refresh fully succeeds. -/
def ok_env_sb : Env :=
  { fetch := fun _ => Except.ok "page",
    parse_document := fun _ => ok_doc_sb "Guitar" }

/-- A document on which both Thomann selectors match exactly once. -/
def ok_doc_th : Html :=
  { select := fun sel =>
      if sel = thomann_name_selector then [{ inner_html := "T Guitar" }]
      else if sel = thomann_stock_selector then [{ inner_html := "på lager" }]
      else [] }

/-- Environment on which a Thomann refresh fully succeeds. -/
def ok_env_th : Env :=
  { fetch := fun _ => Except.ok "page",
    parse_document := fun _ => ok_doc_th }

/-- Three monitors for the batch-isolation scenario. -/
def c5_monitors : List Monitor :=
  [Monitor.strandberg (StrandbergGuitarsCom.new "u1"),
   Monitor.strandberg (StrandbergGuitarsCom.new "u2"),
   Monitor.strandberg (StrandbergGuitarsCom.new "u3")]

/-- Environment for the batch-isolation scenario: the fetch of monitor
number 2 (url u2) fails, the other fetches succeed and their pages parse to
documents on which both selectors match exactly once. -/
def c5_env : Env :=
  { fetch := fun u =>
      if u = "u2" then Except.error (SimpleError.new "connection failed")
      else Except.ok u,
    parse_document := fun resp => ok_doc_sb ("Product " ++ resp) }

/-- Case analysis of a Strandberg update: either some step failed, the
Result is that error and the state only had its status reset to Unknown, or
every step succeeded and both extracted fields were stored. -/
theorem strandberg_update_cases (s : StrandbergGuitarsCom) (env : Env) :
    (∃ e, (s.update env).1 = Except.error e ∧
      (s.update env).2 = { s with stock_status := StockStatus.Unknown })
    ∨ (∃ resp name_el stock_el,
        env.fetch s.url = Except.ok resp ∧
        get_single_element (env.parse_document resp) strandberg_name_selector =
          Except.ok name_el ∧
        get_single_element (env.parse_document resp) strandberg_stock_selector =
          Except.ok stock_el ∧
        (s.update env).1 = Except.ok () ∧
        (s.update env).2 =
          { stock_status := strandbergClassify stock_el.inner_html,
            name := some name_el.inner_html, url := s.url }) := by
  rcases hf : env.fetch s.url with e | resp
  · left
    exact ⟨e, by simp [StrandbergGuitarsCom.update, hf],
      by simp [StrandbergGuitarsCom.update, hf]⟩
  · rcases hn : get_single_element (env.parse_document resp)
        strandberg_name_selector with e | name_el
    · left
      exact ⟨e, by simp [StrandbergGuitarsCom.update, hf, hn],
        by simp [StrandbergGuitarsCom.update, hf, hn]⟩
    · rcases hs : get_single_element (env.parse_document resp)
          strandberg_stock_selector with e | stock_el
      · left
        exact ⟨e, by simp [StrandbergGuitarsCom.update, hf, hn, hs],
          by simp [StrandbergGuitarsCom.update, hf, hn, hs]⟩
      · right
        exact ⟨resp, name_el, stock_el, rfl, hn, hs,
          by simp [StrandbergGuitarsCom.update, hf, hn, hs],
          by simp [StrandbergGuitarsCom.update, hf, hn, hs]⟩

/-- Case analysis of a Thomann update, same shape as the Strandberg one. -/
theorem thomann_update_cases (t : ThomannDe) (env : Env) :
    (∃ e, (t.update env).1 = Except.error e ∧
      (t.update env).2 = { t with stock_status := StockStatus.Unknown })
    ∨ (∃ resp name_el stock_el,
        env.fetch t.url = Except.ok resp ∧
        get_single_element (env.parse_document resp) thomann_name_selector =
          Except.ok name_el ∧
        get_single_element (env.parse_document resp) thomann_stock_selector =
          Except.ok stock_el ∧
        (t.update env).1 = Except.ok () ∧
        (t.update env).2 =
          { stock_status := thomannClassify stock_el.inner_html,
            name := some name_el.inner_html, url := t.url }) := by
  rcases hf : env.fetch t.url with e | resp
  · left
    exact ⟨e, by simp [ThomannDe.update, hf], by simp [ThomannDe.update, hf]⟩
  · rcases hn : get_single_element (env.parse_document resp)
        thomann_name_selector with e | name_el
    · left
      exact ⟨e, by simp [ThomannDe.update, hf, hn],
        by simp [ThomannDe.update, hf, hn]⟩
    · rcases hs : get_single_element (env.parse_document resp)
          thomann_stock_selector with e | stock_el
      · left
        exact ⟨e, by simp [ThomannDe.update, hf, hn, hs],
          by simp [ThomannDe.update, hf, hn, hs]⟩
      · right
        exact ⟨resp, name_el, stock_el, rfl, hn, hs,
          by simp [ThomannDe.update, hf, hn, hs],
          by simp [ThomannDe.update, hf, hn, hs]⟩

/-- C1: get_single_element returns an element exactly when the selector
yields exactly one match in the document; the returned element is then the
unique match, and a match count of 0 or of at least 2 yields an error. -/
theorem get_single_element_exactly_one (doc : Html) (sel : String) :
    ((∃ e, get_single_element doc sel = Except.ok e ∧ doc.select sel = [e]) ↔
      (doc.select sel).length = 1)
    ∧ ((doc.select sel).length ≠ 1 ↔
      ∃ err, get_single_element doc sel = Except.error err) := by
  by_cases h : (doc.select sel).length = 1
  · obtain ⟨a, ha⟩ := List.length_eq_one.mp h
    have hok : get_single_element doc sel = Except.ok a := by
      simp [get_single_element, ha]
    refine ⟨⟨fun _ => h, fun _ => ⟨a, hok, ha⟩⟩, fun hne => absurd h hne, ?_⟩
    rintro ⟨err, herr⟩
    rw [hok] at herr
    exact absurd herr (by simp)
  · have herr : ∃ err, get_single_element doc sel = Except.error err :=
      ⟨SimpleError.new ("Found " ++ toString (doc.select sel).length ++
        " selection(s) for " ++ sel), by simp [get_single_element, h]⟩
    refine ⟨⟨?_, fun h1 => absurd h1 h⟩, fun _ => herr, fun _ => h⟩
    rintro ⟨e, he, hsel⟩
    rw [hsel]
    rfl

/-- C2: in both site variants, update resets stock_status to Unknown before
any fetch or parse, so whenever update returns an error at any step (fetch,
parse, either selector) the stock_status after the call is Unknown. -/
theorem update_error_status_unknown (s : StrandbergGuitarsCom) (t : ThomannDe)
    (env1 env2 : Env) (e1 e2 : SimpleError) :
    ((s.update env1).1 = Except.error e1 →
      (s.update env1).2.stock_status = StockStatus.Unknown)
    ∧ ((t.update env2).1 = Except.error e2 →
      (t.update env2).2.stock_status = StockStatus.Unknown) := by
  constructor
  · intro h
    rcases strandberg_update_cases s env1 with
      ⟨e, h1, h2⟩ | ⟨resp, ne, se, hf, hn, hs, h1, h2⟩
    · rw [h2]
    · rw [h1] at h
      exact absurd h (by simp)
  · intro h
    rcases thomann_update_cases t env2 with
      ⟨e, h1, h2⟩ | ⟨resp, ne, se, hf, hn, hs, h1, h2⟩
    · rw [h2]
    · rw [h1] at h
      exact absurd h (by simp)

/-- C2 witness: a concrete fetch failure on both variants leaves the status
Unknown. -/
theorem update_error_status_unknown_witness :
    (s_wit.update fail_env).2.stock_status = StockStatus.Unknown
    ∧ (t_wit.update fail_env).2.stock_status = StockStatus.Unknown :=
  ⟨(update_error_status_unknown s_wit t_wit fail_env fail_env
      (SimpleError.new "connection failed")
      (SimpleError.new "connection failed")).1 rfl,
   (update_error_status_unknown s_wit t_wit fail_env fail_env
      (SimpleError.new "connection failed")
      (SimpleError.new "connection failed")).2 rfl⟩

/-- C4: the classification tables settle the five concrete scenarios listed
by the spec, for both variants. -/
theorem classification_concrete_scenarios :
    strandbergClassify "Out of stock" = StockStatus.OutOfStock
    ∧ strandbergClassify "Only 1 in stock" = StockStatus.InStock
    ∧ thomannClassify "på lager" = StockStatus.InStock
    ∧ thomannClassify "på lager indenfor 3-4 uger" = StockStatus.OutOfStock
    ∧ strandbergClassify "something unexpected" = StockStatus.Unknown
    ∧ thomannClassify "something unexpected" = StockStatus.Unknown :=
  ⟨by decide, by decide, by decide, by decide, by decide, by decide⟩

/-- C9: in both variants is_in_stock is true exactly when the stored status
is InStock; it is a pure read (a function of the state alone, by
construction of the embedding). -/
theorem is_in_stock_iff (s : StrandbergGuitarsCom) (t : ThomannDe) :
    (s.is_in_stock = true ↔ s.stock_status = StockStatus.InStock)
    ∧ (t.is_in_stock = true ↔ t.stock_status = StockStatus.InStock) := by
  constructor <;>
    simp [StrandbergGuitarsCom.is_in_stock, ThomannDe.is_in_stock]

/-- C10: the Strandberg table also contains the phrase only 2 in stock; any
text normalizing to it classifies as InStock. -/
theorem only_two_in_stock_classifies_in_stock (text : String)
    (h : trimRust (lowercaseRust text) = "only 2 in stock") :
    strandbergClassify text = StockStatus.InStock
    ∧ strandbergTable.lookup "only 2 in stock" = some StockStatus.InStock := by
  constructor
  · simp only [strandbergClassify]
    rw [h]
    decide
  · decide

/-- C10 witness: the phrase itself, with mixed case and padding. -/
theorem only_two_in_stock_witness :
    trimRust (lowercaseRust " Only 2 in stock ") = "only 2 in stock"
    ∧ strandbergClassify " Only 2 in stock " = StockStatus.InStock :=
  ⟨by decide,
   (only_two_in_stock_classifies_in_stock " Only 2 in stock " (by decide)).1⟩

/-- C6: in both variants get_status renders exactly the named form when a
name is present and the url form otherwise, with the lowercase status
labels; in particular the Boden Standard NX 6 example. -/
theorem get_status_format (name url : String) (st : StockStatus) :
    (StrandbergGuitarsCom.mk st (some name) url).get_status =
      "Status for " ++ name ++ " is " ++ st.to_string
    ∧ (StrandbergGuitarsCom.mk st none url).get_status =
      "Status for product with url " ++ url ++ " is " ++ st.to_string
    ∧ (ThomannDe.mk st (some name) url).get_status =
      "Status for " ++ name ++ " is " ++ st.to_string
    ∧ (ThomannDe.mk st none url).get_status =
      "Status for product with url " ++ url ++ " is " ++ st.to_string
    ∧ StockStatus.to_string StockStatus.Unknown = "unknown"
    ∧ StockStatus.to_string StockStatus.InStock = "in stock"
    ∧ StockStatus.to_string StockStatus.OutOfStock = "out of stock"
    ∧ (StrandbergGuitarsCom.mk StockStatus.InStock
        (some "Boden Standard NX 6") "https://example.com/p").get_status =
      "Status for Boden Standard NX 6 is in stock" := by
  refine ⟨rfl, rfl, rfl, rfl, rfl, rfl, rfl, by decide⟩

/-- C8: a freshly constructed monitor of either variant has no name and an
Unknown status, and get_status renders the url form without failure. -/
theorem new_monitor_roundtrip (url : String) :
    (StrandbergGuitarsCom.new url).name = none
    ∧ (StrandbergGuitarsCom.new url).stock_status = StockStatus.Unknown
    ∧ (StrandbergGuitarsCom.new url).get_status =
        "Status for product with url " ++ url ++ " is unknown"
    ∧ (ThomannDe.new url).name = none
    ∧ (ThomannDe.new url).stock_status = StockStatus.Unknown
    ∧ (ThomannDe.new url).get_status =
        "Status for product with url " ++ url ++ " is unknown" := by
  have hiu : " is unknown" = " is " ++ "unknown" := by decide
  refine ⟨rfl, rfl, ?_, rfl, rfl, ?_⟩ <;>
    simp [StrandbergGuitarsCom.new, ThomannDe.new,
      StrandbergGuitarsCom.get_status, ThomannDe.get_status,
      StockStatus.to_string, hiu, String.append_assoc]

/-- The Strandberg if-chain on a normalized key agrees with an exact-match
lookup in the Strandberg table defaulting to Unknown. -/
theorem strandberg_if_eq_lookup (key : String) :
    (if key = "out of stock" then StockStatus.OutOfStock
     else if key = "in stock" then StockStatus.InStock
     else if key = "only 1 in stock" then StockStatus.InStock
     else if key = "only 2 in stock" then StockStatus.InStock
     else StockStatus.Unknown) =
    (strandbergTable.lookup key).getD StockStatus.Unknown := by
  split_ifs with h1 h2 h3 h4
  · rw [h1]; decide
  · rw [h2]; decide
  · rw [h3]; decide
  · rw [h4]; decide
  · have e1 : (key == "out of stock") = false := beq_eq_false_iff_ne.mpr h1
    have e2 : (key == "in stock") = false := beq_eq_false_iff_ne.mpr h2
    have e3 : (key == "only 1 in stock") = false := beq_eq_false_iff_ne.mpr h3
    have e4 : (key == "only 2 in stock") = false := beq_eq_false_iff_ne.mpr h4
    simp [strandbergTable, List.lookup, e1, e2, e3, e4]

/-- The Thomann if-chain on a normalized key agrees with an exact-match
lookup in the Thomann table defaulting to Unknown. -/
theorem thomann_if_eq_lookup (key : String) :
    (if key = "ikke på lager" then StockStatus.OutOfStock
     else if key = "på lager indenfor 3-4 uger" then StockStatus.OutOfStock
     else if key = "på lager indenfor 1-2 uger" then StockStatus.OutOfStock
     else if key = "på lager" then StockStatus.InStock
     else StockStatus.Unknown) =
    (thomannTable.lookup key).getD StockStatus.Unknown := by
  split_ifs with h1 h2 h3 h4
  · rw [h1]; decide
  · rw [h2]; decide
  · rw [h3]; decide
  · rw [h4]; decide
  · have e1 : (key == "ikke på lager") = false := beq_eq_false_iff_ne.mpr h1
    have e2 : (key == "på lager indenfor 3-4 uger") = false :=
      beq_eq_false_iff_ne.mpr h2
    have e3 : (key == "på lager indenfor 1-2 uger") = false :=
      beq_eq_false_iff_ne.mpr h3
    have e4 : (key == "på lager") = false := beq_eq_false_iff_ne.mpr h4
    simp [thomannTable, List.lookup, e1, e2, e3, e4]

/-- C3: classification in both variants is exactly the case-fold plus trim
normalization followed by an exact-match lookup in the site table, with
Unknown for every key not in the table (so no absent phrase can classify as
InStock or OutOfStock). -/
theorem classify_eq_table_lookup (text : String) :
    strandbergClassify text =
      (strandbergTable.lookup (trimRust (lowercaseRust text))).getD
        StockStatus.Unknown
    ∧ thomannClassify text =
      (thomannTable.lookup (trimRust (lowercaseRust text))).getD
        StockStatus.Unknown :=
  ⟨strandberg_if_eq_lookup (trimRust (lowercaseRust text)),
   thomann_if_eq_lookup (trimRust (lowercaseRust text))⟩

/-- C5 counterexample: with three monitors whose second fetch fails, the
run emits four output lines, not three, because the failing monitor gets an
error line in addition to its status line. -/
theorem run_three_monitors_emits_four_lines :
    (run_products c5_env c5_monitors).length = 4
    ∧ (run_products c5_env c5_monitors).length ≠ 3 :=
  ⟨by decide, by decide⟩

/-- C5 amended: the runner refreshes every monitor in input order and emits
its describe line whether or not the refresh failed, plus one extra error
line per failed monitor; in the three-monitor scenario with the second
fetch failing this gives four lines, of which three are describe lines and
one is the error line for monitor two. -/
theorem run_products_isolation :
    (∀ (env : Env) (ms : List Monitor),
      (run_products env ms).length =
        ms.length + ms.countP (fun m => isErr (m.update env).1))
    ∧ run_products c5_env c5_monitors =
        ["Status for Product u1 is in stock",
         "Error occurred while updating, connection failed",
         "Status for product with url u2 is unknown",
         "Status for Product u3 is in stock"] := by
  constructor
  · intro env ms
    induction ms with
    | nil => simp [run_products]
    | cons p rest ih =>
      rcases h : (p.update env).1 with e | u
      · simp [run_products, h, isErr, List.countP_cons, ih]
        omega
      · simp [run_products, h, isErr, List.countP_cons, ih]
        omega
  · decide

/-- C7 counterexample: a refresh in which the name selector succeeds and
extracts NewName but the availability selector then fails leaves the stale
name OldName in place; the freshly extracted text is not stored. -/
theorem name_not_stored_on_availability_failure :
    get_single_element (c7_env.parse_document "page") strandberg_name_selector =
      Except.ok { inner_html := "NewName" }
    ∧ (c7_state.update c7_env).1 =
        Except.error (SimpleError.new
          ("Found 0 selection(s) for " ++ strandberg_stock_selector))
    ∧ (c7_state.update c7_env).2.name = some "OldName"
    ∧ (c7_state.update c7_env).2.name ≠ some "NewName" :=
  ⟨rfl, rfl, rfl, by decide⟩

/-- C7 amended: in both variants the extracted name is stored only after
both selectors succeed; any failing refresh, including one failing only on
the availability selector, leaves name as whatever was last set, while a
fully successful refresh stores the text extracted by the name selector. -/
theorem name_stored_only_on_full_success :
    (∀ (s : StrandbergGuitarsCom) (env : Env) (e : SimpleError),
      (s.update env).1 = Except.error e → (s.update env).2.name = s.name)
    ∧ (∀ (s : StrandbergGuitarsCom) (env : Env),
      (s.update env).1 = Except.ok () →
      ∃ resp el,
        env.fetch s.url = Except.ok resp ∧
        get_single_element (env.parse_document resp) strandberg_name_selector =
          Except.ok el ∧
        (s.update env).2.name = some el.inner_html)
    ∧ (∀ (t : ThomannDe) (env : Env) (e : SimpleError),
      (t.update env).1 = Except.error e → (t.update env).2.name = t.name)
    ∧ (∀ (t : ThomannDe) (env : Env),
      (t.update env).1 = Except.ok () →
      ∃ resp el,
        env.fetch t.url = Except.ok resp ∧
        get_single_element (env.parse_document resp) thomann_name_selector =
          Except.ok el ∧
        (t.update env).2.name = some el.inner_html) := by
  refine ⟨?_, ?_, ?_, ?_⟩
  · intro s env e h
    rcases strandberg_update_cases s env with
      ⟨e2, h1, h2⟩ | ⟨resp, ne, se, hf, hn, hs, h1, h2⟩
    · rw [h2]
    · rw [h1] at h
      exact absurd h (by simp)
  · intro s env h
    rcases strandberg_update_cases s env with
      ⟨e2, h1, h2⟩ | ⟨resp, ne, se, hf, hn, hs, h1, h2⟩
    · rw [h1] at h
      exact absurd h (by simp)
    · exact ⟨resp, ne, hf, hn, by rw [h2]⟩
  · intro t env e h
    rcases thomann_update_cases t env with
      ⟨e2, h1, h2⟩ | ⟨resp, ne, se, hf, hn, hs, h1, h2⟩
    · rw [h2]
    · rw [h1] at h
      exact absurd h (by simp)
  · intro t env h
    rcases thomann_update_cases t env with
      ⟨e2, h1, h2⟩ | ⟨resp, ne, se, hf, hn, hs, h1, h2⟩
    · rw [h1] at h
      exact absurd h (by simp)
    · exact ⟨resp, ne, hf, hn, by rw [h2]⟩

/-- C7 witness: concrete refreshes exercising the failing branch and the
succeeding branch of both variants. -/
theorem name_stored_only_on_full_success_witness :
    (c7_state.update c7_env).2.name = some "OldName"
    ∧ (∃ resp el,
        ok_env_sb.fetch "u" = Except.ok resp ∧
        get_single_element (ok_env_sb.parse_document resp)
          strandberg_name_selector = Except.ok el ∧
        ((StrandbergGuitarsCom.new "u").update ok_env_sb).2.name =
          some el.inner_html)
    ∧ (t_wit.update fail_env).2.name = none
    ∧ (∃ resp el,
        ok_env_th.fetch "u" = Except.ok resp ∧
        get_single_element (ok_env_th.parse_document resp)
          thomann_name_selector = Except.ok el ∧
        ((ThomannDe.new "u").update ok_env_th).2.name =
          some el.inner_html) :=
  ⟨name_stored_only_on_full_success.1 c7_state c7_env _ rfl,
   name_stored_only_on_full_success.2.1 (StrandbergGuitarsCom.new "u")
     ok_env_sb rfl,
   name_stored_only_on_full_success.2.2.1 t_wit fail_env _ rfl,
   name_stored_only_on_full_success.2.2.2 (ThomannDe.new "u") ok_env_th rfl⟩

/-- C1 witness: a document where the name selector matches exactly once
yields that unique element, and one where the availability selector matches
zero elements yields an error. -/
theorem get_single_element_exactly_one_witness :
    (∃ e, get_single_element (ok_doc_sb "Guitar") strandberg_name_selector =
        Except.ok e ∧
      (ok_doc_sb "Guitar").select strandberg_name_selector = [e])
    ∧ (∃ err, get_single_element c7_doc strandberg_stock_selector =
        Except.error err) :=
  ⟨(get_single_element_exactly_one (ok_doc_sb "Guitar")
      strandberg_name_selector).1.mpr (by decide),
   (get_single_element_exactly_one c7_doc strandberg_stock_selector).2.mp
      (by decide)⟩

/-- C9 witness: concrete states on both sides of the equivalence. -/
theorem is_in_stock_iff_witness :
    s_wit.stock_status = StockStatus.InStock
    ∧ (ThomannDe.mk StockStatus.InStock none "u").is_in_stock = true :=
  ⟨(is_in_stock_iff s_wit (ThomannDe.mk StockStatus.InStock none "u")).1.mp
      (by decide),
   (is_in_stock_iff s_wit (ThomannDe.mk StockStatus.InStock none "u")).2.mpr
      (by decide)⟩
